import Mathlib

/-!
Verification of the pdf2htmlEX conversion services.

The repository contains three FastAPI services:
  * `src/app.py`                  — "main" service: validates options, acquires PDF
                                     bytes (base64 or URL), enforces a 20 MiB limit,
                                     and shells out to the external pdf2htmlEX binary;
  * `src/pdf2htmlex-service/app.py` — "ex" service: acquires PDF bytes and renders a
                                     semantic HTML document itself with PyMuPDF,
                                     one `<section>` per page with escaped text;
  * `src/pdf2htmlx-service/app.py`  — "x" service: another pdf2htmlEX shell-out
                                     variant with its own error mapping.

This file gives a shallow embedding of the pure decision logic of those services
(validation, command construction, control flow of the request pipeline with the
outcomes of external collaborators — base64 decoding, HTTP download, the converter
subprocess — supplied as explicit inputs) and proves or refutes the specification
claims about them.  The Style Registry described by the specification has no
implementation anywhere in the sources; it is modelled from the specification text
where a claim needs it, and marked as such.
-/

namespace Pdf2HtmlEx

/-! ## src/app.py : options model and validation -/

/-- The `embed` literal of `PdfOptions` in src/app.py
(`Literal["all", "none", "css", "image", "font"]`). -/
inductive EmbedChoice where
  | all
  | none
  | css
  | image
  | font
deriving DecidableEq, Repr

/-- `PdfOptions` from src/app.py (lines 28–42).  `zoom` is a positive float in the
source; only its string rendering `str(options.zoom)` ever reaches the command
line, so it is carried here directly as that string (`zoomStr`).  `page_from` and
`page_to` are `Optional[int]` with a `ge=1` field constraint. -/
structure PdfOptions where
  embed : EmbedChoice
  zoomStr : String
  page_from : Option Nat
  page_to : Option Nat
  timeout_sec : Nat
  returnZipB64 : Bool
deriving DecidableEq, Repr

/-- Python truthiness of an `Optional[int]`: `None` and `0` are falsy. -/
def truthyNat : Option Nat → Bool
  | Option.none => false
  | Option.some n => n ≠ 0

/-- The `validate_page_range` root validator of `PdfOptions` (src/app.py lines
36–42): `if start and end and start > end: raise ValueError("page_from must be
<= page_to")`.  A raised `ValueError` becomes a 422 validation failure; the
function never modifies the values. -/
def validate_page_range (start stop : Option Nat) : Except String Unit :=
  if truthyNat start ∧ truthyNat stop ∧ start.getD 0 > stop.getD 0 then
    Except.error "page_from must be <= page_to"
  else
    Except.ok ()

/-- The `ge=1` field constraints on `page_from` / `page_to` (src/app.py lines
31–32): when a bound is set it must be at least 1, otherwise pydantic rejects
the payload before the root validator runs. -/
def fieldBoundsOk (start stop : Option Nat) : Bool :=
  (match start with | Option.none => true | Option.some n => decide (1 ≤ n)) &&
  (match stop with | Option.none => true | Option.some n => decide (1 ≤ n))

/-! ## src/app.py : command construction -/

/-- `embed_map` from `_build_command` (src/app.py lines 88–94): each embed mode
chooses the `--embed-css`, `--embed-image` and `--embed-font` flag values. -/
def embed_map : EmbedChoice → String × String × String
  | EmbedChoice.all => ("1", "1", "1")
  | EmbedChoice.none => ("0", "0", "0")
  | EmbedChoice.css => ("1", "0", "0")
  | EmbedChoice.image => ("0", "1", "0")
  | EmbedChoice.font => ("0", "0", "1")

/-- The page-bound arguments appended by `_build_command` (src/app.py lines
109–112): `--first-page page_from` when `page_from` is set, then `--last-page
page_to` when `page_to` is set.  The requested values are rendered verbatim with
`str(...)`; no document page count is consulted. -/
def page_args (start stop : Option Nat) : List String :=
  (match start with
   | Option.none => []
   | Option.some a => ["--first-page", toString a]) ++
  (match stop with
   | Option.none => []
   | Option.some b => ["--last-page", toString b])

/-- `_build_command` (src/app.py lines 87–115): the full pdf2htmlEX invocation.
Note that the function receives only the options and the two file paths — the
document's page count is not an input. -/
def build_command (options : PdfOptions) (input_pdf output_html : String) :
    List String :=
  let flags := embed_map options.embed
  ["pdf2htmlEX",
   "--embed-css", flags.1,
   "--embed-image", flags.2.1,
   "--embed-font", flags.2.2,
   "--zoom", options.zoomStr] ++
  page_args options.page_from options.page_to ++
  [input_pdf, output_html]

/-- Follows the spec's words (§4.4 range resolution), for comparison with the
code: `from' = max(1, min(requested.from_page, page_count))`; `to' = max(from',
min(requested.to_page, page_count))`; an unset bound defaults to `1` /
`page_count`. -/
def spec_resolved_range (start stop : Option Nat) (page_count : Nat) :
    Nat × Nat :=
  let f := max 1 (min (start.getD 1) page_count)
  (f, max f (min (stop.getD page_count) page_count))

/-- Concrete options requesting pages [5, 7]. -/
def opts57 : PdfOptions :=
  { embed := EmbedChoice.all, zoomStr := "1.0", page_from := Option.some 5,
    page_to := Option.some 7, timeout_sec := 120, returnZipB64 := false }

/-! ## src/pdf2htmlex-service/app.py : the PyMuPDF-based renderer

The `pdf2html` handler (lines 42–59) iterates the document's pages with
`enumerate(doc, start=1)`, escapes each page's extracted text with
`html.escape` and wraps it as
`<section data-page='{i}'><pre>…</pre></section>`.  The extractor output (the
`page.get_text("text")` result of each page, in document order) is the model's
input: a list of page texts. -/

/-- A single-quote character (U+0027), used inside the generated HTML literals. -/
def sq : Char := Char.ofNat 39

/-- `html.escape(s, quote=True)` from the Python standard library, as called at
src/pdf2htmlex-service/app.py line 51: `&` becomes `&amp;`, `<` becomes `&lt;`,
`>` becomes `&gt;`, `"` becomes `&quot;` and `'` becomes `&#x27;`.  The source
performs these as sequential `str.replace` passes in that order; since no
replacement string contains a character replaced by a later pass and `&` is
replaced first, the result equals this character-wise expansion. -/
def escapeChar (c : Char) : List Char :=
  if c = '&' then "&amp;".toList
  else if c = '<' then "&lt;".toList
  else if c = '>' then "&gt;".toList
  else if c = '"' then "&quot;".toList
  else if c = sq then ("&#x27".toList ++ [';'])
  else [c]

/-- `html.escape` applied to a whole text. -/
def escape (s : List Char) : List Char :=
  s.flatMap escapeChar

/-- String form of `escape`. -/
def escapeS (s : String) : String :=
  String.mk (escape s.toList)

/-- The fixed opening fragment `"<html><head><meta charset='utf-8'></head><body>"`
(src/pdf2htmlex-service/app.py line 45). -/
def headerFragment : String :=
  "<html><head><meta charset=" ++ String.mk [sq] ++ "utf-8" ++ String.mk [sq]
    ++ "></head><body>"

/-- The fixed closing fragment `"</body></html>"` (line 53). -/
def footerFragment : String := "</body></html>"

/-- The text placed before the escaped page text in the page fragment:
`<section data-page='{i}'><pre>`. -/
def sectionOpen (i : Nat) : String :=
  "<section data-page=" ++ String.mk [sq] ++ toString i ++ String.mk [sq]
    ++ "><pre>"

/-- The text placed after the escaped page text: `</pre></section>`. -/
def sectionClose : String := "</pre></section>"

/-- The page fragment appended for page `i` (1-based) with extracted text
`text` (lines 50–52): `<section data-page='{i}'><pre>{escape(text)}</pre></section>`. -/
def pageFragment (i : Nat) (text : String) : String :=
  sectionOpen i ++ escapeS text ++ sectionClose

/-- The `for i, page in enumerate(doc, start=1)` loop (lines 46–52): starting
from the fragment list `[headerFragment]` and the counter `pages = 0`, each page
appends its fragment and sets `pages` to its 1-based index. -/
def renderLoop (texts : List String) : List String × Nat :=
  texts.foldl
    (fun acc t => (acc.1 ++ [pageFragment (acc.2 + 1) t], acc.2 + 1))
    ([headerFragment], 0)

/-- The full `pdf2html` handler of src/pdf2htmlex-service/app.py (lines 42–59),
from the extractor output to the `html_semantic` string and the `pages` metric:
the fragments (header, one per page, footer) joined with `"\n"`, and the final
value of the page counter. -/
def pdf2html_ex_render (texts : List String) : String × Nat :=
  let st := renderLoop texts
  (String.intercalate "\n" (st.1 ++ [footerFragment]), st.2)

/-- src/pdf2htmlex-service/app.py defines no module-level mutable state that the
`pdf2html` handler reads or writes (its module globals are the immutable route
table and a logger); we make this explicit by threading a global state through
the handler, which the handler returns untouched. -/
structure ExGlobalState where
  mk ::
deriving DecidableEq

/-- The handler as a state-passing function over the (empty) module state:
its output is `pdf2html_ex_render` of the extractor output, and the state is
returned unchanged. -/
def pdf2html_ex_stateful (s : ExGlobalState) (texts : List String) :
    (String × Nat) × ExGlobalState :=
  (pdf2html_ex_render texts, s)

/-! ## Request pipelines

The services call three external collaborators: `base64.b64decode`, an HTTP
download (`requests.get` + `raise_for_status`), and the pdf2htmlEX subprocess.
Each collaborator's outcome is an explicit input of the embedded pipeline, so
the pipeline itself is a pure function from the request and those outcomes to
the HTTP-level result. -/

/-- PDF bytes, abstracted as a list of byte values. -/
abbrev Bytes := List Nat

/-- A failure as it leaves a handler: `Option.some s` is a raised
`HTTPException(status_code=s)`; `Option.none` is an exception the handler does
not catch, which FastAPI's default handler turns into an HTTP 500 response. -/
def httpStatus : Option Nat → Nat
  | Option.some s => s
  | Option.none => 500

/-- Python truthiness of an `Optional[str]`: `None` and `""` are falsy. -/
def truthyStr : Option String → Bool
  | Option.none => false
  | Option.some s => s ≠ ""

/-- `MAX_PDF_BYTES = 20 * 1024 * 1024` (src/app.py line 24). -/
def MAX_PDF_BYTES : Nat := 20 * 1024 * 1024

/-- Python `str.strip()`: remove leading and trailing whitespace. -/
def pyStrip (s : String) : String :=
  String.mk
    (((s.toList.dropWhile Char.isWhitespace).reverse.dropWhile
        Char.isWhitespace).reverse)

/-- Python `str.lower()` (the URLs involved are ASCII, where Python's `lower`
agrees with character-wise `Char.toLower`). -/
def pyLower (s : String) : String :=
  String.mk (s.toList.map Char.toLower)

/-- Python `str.startswith(p)`. -/
def pyStartsWith (s p : String) : Bool :=
  decide (s.toList.take p.toList.length = p.toList)

/-- `url.lower().startswith(("http://", "https://"))` from `_download_pdf`
(src/app.py line 73). -/
def startsWithHttp (u : String) : Bool :=
  pyStartsWith (pyLower u) "http://" || pyStartsWith (pyLower u) "https://"

/-- Outcome of the `subprocess.run` call on the converter: it either hits the
timeout (`subprocess.TimeoutExpired`) or finishes with a return code. -/
inductive ConvOutcome where
  | timeout
  | finished (returncode : Int)
deriving DecidableEq, Repr

/-- The collaborator outcomes consumed by the main service's `pdf2html`
handler (src/app.py): the base64 decode result, the download result, the
converter outcome and whether `output.html` exists after a zero-exit run. -/
structure MainEnv where
  decodeRes : Except Unit Bytes
  downloadRes : Except Unit Bytes
  converter : ConvOutcome
  htmlExists : Bool

/-- What the main service's handler did with a request: the HTTP-level result,
whether `requests.get` was called, the acquired PDF bytes (when acquisition
succeeded), whether the input file was written to disk, and whether the
converter subprocess was invoked. -/
structure MainResult where
  result : Except (Option Nat) Unit
  fetchedUrl : Bool
  acquired : Option Bytes
  wroteFile : Bool
  invokedConverter : Bool

/-- The acquisition phase of the main handler (src/app.py lines 135–144 with
`_decode_pdf_from_b64` and `_download_pdf`): a truthy `pdf_b64` is decoded
(invalid base64 → 400) and the URL is never touched; otherwise the code asserts
`pdf_url` is present (a missing one would raise an uncaught `AssertionError`),
strips it, rejects an empty or non-http(s) URL with 400 without fetching, and
otherwise downloads (any `RequestException` → 400). -/
def acquire_main (pdf_b64 pdf_url : Option String) (env : MainEnv) :
    Except (Option Nat) Bytes × Bool :=
  if truthyStr pdf_b64 then
    (match env.decodeRes with
     | Except.ok bs => Except.ok bs
     | Except.error _ => Except.error (Option.some 400), false)
  else
    match pdf_url with
    | Option.none => (Except.error Option.none, false)
    | Option.some u =>
      let url := pyStrip u
      if url = "" then (Except.error (Option.some 400), false)
      else if !startsWithHttp url then (Except.error (Option.some 400), false)
      else
        match env.downloadRes with
        | Except.ok bs => (Except.ok bs, true)
        | Except.error _ => (Except.error (Option.some 400), true)

/-- The main service's `pdf2html` handler (src/app.py lines 130–224), from the
request sources and collaborator outcomes to what happened: acquisition, then
the 20 MiB limit check (413, before any file is written or the converter is
invoked), then writing the input file and running the converter — timeout → 504,
non-zero exit → 500, missing HTML output → 500, otherwise success. -/
def pdf2html_main (pdf_b64 pdf_url : Option String) (env : MainEnv) :
    MainResult :=
  let acq := acquire_main pdf_b64 pdf_url env
  match acq.1 with
  | Except.error e =>
    { result := Except.error e, fetchedUrl := acq.2, acquired := Option.none,
      wroteFile := false, invokedConverter := false }
  | Except.ok bs =>
    if bs.length > MAX_PDF_BYTES then
      { result := Except.error (Option.some 413), fetchedUrl := acq.2,
        acquired := Option.some bs, wroteFile := false,
        invokedConverter := false }
    else
      match env.converter with
      | ConvOutcome.timeout =>
        { result := Except.error (Option.some 504), fetchedUrl := acq.2,
          acquired := Option.some bs, wroteFile := true,
          invokedConverter := true }
      | ConvOutcome.finished rc =>
        if rc ≠ 0 then
          { result := Except.error (Option.some 500), fetchedUrl := acq.2,
            acquired := Option.some bs, wroteFile := true,
            invokedConverter := true }
        else if !env.htmlExists then
          { result := Except.error (Option.some 500), fetchedUrl := acq.2,
            acquired := Option.some bs, wroteFile := true,
            invokedConverter := true }
        else
          { result := Except.ok (), fetchedUrl := acq.2,
            acquired := Option.some bs, wroteFile := true,
            invokedConverter := true }

/-- `_load_pdf_bytes` of src/pdf2htmlex-service/app.py (lines 28–38): a truthy
`pdf_b64` is decoded (any decoding exception → HTTPException 400, URL
untouched); otherwise a present `pdf_url` is fetched with `requests.get` and
`r.raise_for_status()` — there is NO try/except around the download, so a
download failure propagates as an uncaught exception (`Option.none`); with
neither source, HTTPException 400.  A validated `HttpUrl` value is always
truthy, so `if body.pdf_url:` is modelled as presence.  The second component
records whether `requests.get` was called. -/
def load_pdf_bytes_ex (pdf_b64 pdf_url : Option String)
    (decodeRes downloadRes : Except Unit Bytes) :
    Except (Option Nat) Bytes × Bool :=
  if truthyStr pdf_b64 then
    (match decodeRes with
     | Except.ok bs => Except.ok bs
     | Except.error _ => Except.error (Option.some 400), false)
  else if pdf_url.isSome then
    match downloadRes with
    | Except.ok bs => (Except.ok bs, true)
    | Except.error _ => (Except.error Option.none, true)
  else
    (Except.error (Option.some 400), false)

/-- `_load_pdf_bytes` of src/pdf2htmlx-service/app.py (lines 95–104), with the
`strip_whitespace` field validator (lines 54–57) already applied to `pdf_b64`
before the handler runs: the loader tests the STRIPPED value for truthiness and
decodes it (`_decode_pdf_b64`: invalid base64 → 400); a present `pdf_url` is
fetched by `_fetch_pdf_url`, whose `RequestException` handler raises 400;
neither source → 400. -/
def load_pdf_bytes_x (pdf_b64 pdf_url : Option String)
    (decodeRes downloadRes : Except Unit Bytes) :
    Except (Option Nat) Bytes × Bool :=
  let stripped := pdf_b64.map pyStrip
  if truthyStr stripped then
    (match decodeRes with
     | Except.ok bs => Except.ok bs
     | Except.error _ => Except.error (Option.some 400), false)
  else if pdf_url.isSome then
    match downloadRes with
    | Except.ok bs => (Except.ok bs, true)
    | Except.error _ => (Except.error (Option.some 400), true)
  else
    (Except.error (Option.some 400), false)

/-- The `convert_pdf` handler of src/pdf2htmlx-service/app.py (lines 133–201)
reduced to its failure mapping: load the PDF bytes, then run pdf2htmlEX with
`check=True` — `TimeoutExpired` → 504, `CalledProcessError` (non-zero exit) →
500, missing `out.html` → 500, otherwise success. -/
def convert_pdf_x (pdf_b64 pdf_url : Option String)
    (decodeRes downloadRes : Except Unit Bytes) (converter : ConvOutcome)
    (htmlExists : Bool) : Except (Option Nat) Unit :=
  match (load_pdf_bytes_x pdf_b64 pdf_url decodeRes downloadRes).1 with
  | Except.error e => Except.error e
  | Except.ok _ =>
    match converter with
    | ConvOutcome.timeout => Except.error (Option.some 504)
    | ConvOutcome.finished rc =>
      if rc ≠ 0 then Except.error (Option.some 500)
      else if !htmlExists then Except.error (Option.some 500)
      else Except.ok ()

/-! ## Style Registry (modelled from the spec)

The specification's core component — the style-factoring semantic renderer with
its Style Canonicalizer and Style Registry (§4.1–§4.2) — has no implementation
anywhere under the repository's sources; the services either delegate to the
external pdf2htmlEX binary or emit unstyled `<pre>` text.  The registry is
therefore modelled from the specification text. -/

/-- Index of the first occurrence of a key in a list of keys, if any. -/
def lookupIdx : List String → String → Option Nat
  | [], _ => Option.none
  | x :: xs, k =>
    if x = k then Option.some 0 else (lookupIdx xs k).map (· + 1)

/-- Modelled from the spec: the Style Registry (§3, §4.2) — absent from src/ —
is "a mapping from CanonicalStyleKey to a short class identifier,
insertion-ordered; identifiers are generated deterministically as
`s0, s1, s2, …` in first-seen order".  Its state is the list of interned keys
in first-seen order. -/
structure StyleRegistry where
  keys : List String
deriving DecidableEq, Repr

/-- Modelled from the spec: `intern(key) -> ClassId` (§4.2).  A key already
present keeps its first-seen identifier and leaves the registry unchanged; a
new key is appended and receives the next identifier `s{n}`. -/
def StyleRegistry.intern (r : StyleRegistry) (key : String) :
    String × StyleRegistry :=
  match lookupIdx r.keys key with
  | Option.some i => ("s" ++ toString i, r)
  | Option.none =>
    ("s" ++ toString r.keys.length, StyleRegistry.mk (r.keys ++ [key]))

/-- Modelled from the spec: `emit_css() -> ordered sequence of (ClassId, key)`
in first-seen order (§4.2). -/
def StyleRegistry.emit_css (r : StyleRegistry) : List (String × String) :=
  r.keys.enum.map (fun p => ("s" ++ toString p.1, p.2))

/-- Interning a whole sequence of canonical keys into a fresh registry, in
order (one document conversion). -/
def runIntern (ks : List String) : StyleRegistry :=
  ks.foldl (fun r k => (r.intern k).2) (StyleRegistry.mk [])

/-- The distinct keys of a sequence in first-seen order, the reference order
for the registry's identifiers. -/
def firstSeen (ks : List String) : List String :=
  ks.foldl (fun acc k => if k ∈ acc then acc else acc ++ [k]) []

/-! ## Auxiliary predicates and concrete instances used by the theorems -/

/-- Scans a character sequence and checks that it contains no `<` and no `>`,
and that every `&` starts one of the five entities produced by `html.escape`
(`&amp;` `&lt;` `&gt;` `&quot;` `&#x27;`) — i.e. no raw special character
survives outside an escape entity. -/
def ampEntitiesOnly : List Char → Bool
  | [] => true
  | c :: rest =>
    if c = '<' ∨ c = '>' then false
    else if c = '&' then
      (decide (rest.take 4 = "amp;".toList) ||
       decide (rest.take 3 = "lt;".toList) ||
       decide (rest.take 3 = "gt;".toList) ||
       decide (rest.take 5 = "quot;".toList) ||
       decide (rest.take 5 = "#x27".toList ++ [';'])) &&
      ampEntitiesOnly rest
    else ampEntitiesOnly rest

/-- A collaborator environment whose base64 decode yields one byte more than
the 20 MiB limit and whose converter would succeed. -/
def bigEnv : MainEnv :=
  { decodeRes := Except.ok (List.replicate (MAX_PDF_BYTES + 1) 0),
    downloadRes := Except.ok [],
    converter := ConvOutcome.finished 0,
    htmlExists := true }

/-- A collaborator environment whose base64 decode yields a tiny payload and
whose converter succeeds. -/
def okEnv : MainEnv :=
  { decodeRes := Except.ok [37, 80, 68, 70],
    downloadRes := Except.ok [],
    converter := ConvOutcome.finished 0,
    htmlExists := true }

/-- A collaborator environment in which both base64 decoding and the download
fail. -/
def errEnv : MainEnv :=
  MainEnv.mk (Except.error ()) (Except.error ()) ConvOutcome.timeout false

/-- A collaborator environment with a small successful decode whose converter
run hits the timeout. -/
def timeoutEnv : MainEnv :=
  MainEnv.mk (Except.ok [1]) (Except.ok []) ConvOutcome.timeout true

/-! ## Validation lemmas (shared helpers) -/

theorem validate_page_range_inverted {a b : Nat} (ha : a ≠ 0) (hb : b ≠ 0)
    (h : b < a) :
    validate_page_range (Option.some a) (Option.some b)
      = Except.error "page_from must be <= page_to" := by
  have hc : (truthyNat (Option.some a) ∧ truthyNat (Option.some b)
      ∧ (Option.some a).getD 0 > (Option.some b).getD 0) := by
    refine ⟨?_, ?_, ?_⟩ <;> simp [truthyNat, Option.getD, ha, hb, h]
  simp only [validate_page_range]
  rw [if_pos hc]

theorem validate_page_range_ordered {a b : Nat} (h : a ≤ b) :
    validate_page_range (Option.some a) (Option.some b) = Except.ok () := by
  have hc : ¬ (truthyNat (Option.some a) ∧ truthyNat (Option.some b)
      ∧ (Option.some a).getD 0 > (Option.some b).getD 0) := by
    simp [truthyNat, Option.getD]
    intro _ _
    omega
  simp only [validate_page_range]
  rw [if_neg hc]

theorem validate_page_range_no_stop (a : Option Nat) :
    validate_page_range a Option.none = Except.ok () := by
  have hc : ¬ (truthyNat a ∧ truthyNat Option.none
      ∧ a.getD 0 > (Option.none : Option Nat).getD 0) := by
    simp [truthyNat]
  simp only [validate_page_range]
  rw [if_neg hc]

theorem validate_page_range_no_start (b : Option Nat) :
    validate_page_range Option.none b = Except.ok () := by
  have hc : ¬ (truthyNat Option.none ∧ truthyNat b
      ∧ (Option.none : Option Nat).getD 0 > b.getD 0) := by
    simp [truthyNat]
  simp only [validate_page_range]
  rw [if_neg hc]

/-! ## C1 -/

/-- C1 counterexample: requesting the inverted range [5, 3] does not get
silently clamped — the `validate_page_range` root validator rejects the request
with a `ValueError` (a 422 validation failure), before any page count is even
known, so on a 4-page document the result is an error, not the range [4, 4]. -/
theorem c1_inverted_range_fails :
    validate_page_range (Option.some 5) (Option.some 3)
      = Except.error "page_from must be <= page_to" :=
  validate_page_range_inverted (by decide) (by decide) (by decide)

/-- C1 (amended): a request whose page range is inverted (both bounds set and
`page_from > page_to`) is rejected by validation with the error "page_from must
be <= page_to" rather than clamped; a request with `page_from <= page_to`, or
with either bound unset, passes validation — and no clamping against the
document's page count happens anywhere (see the C2 theorem). -/
theorem c1_inverted_range_rejected_not_clamped (a b : Nat) (ha : 1 ≤ a)
    (hb : 1 ≤ b) :
    (b < a → validate_page_range (Option.some a) (Option.some b)
        = Except.error "page_from must be <= page_to")
    ∧ (a ≤ b →
        validate_page_range (Option.some a) (Option.some b) = Except.ok ())
    ∧ validate_page_range (Option.some a) Option.none = Except.ok ()
    ∧ validate_page_range Option.none (Option.some b) = Except.ok () :=
  ⟨fun h => validate_page_range_inverted (by omega) (by omega) h,
   fun h => validate_page_range_ordered h,
   validate_page_range_no_stop _,
   validate_page_range_no_start _⟩

/-- Witness for the C1 theorem at the concrete inputs (5, 3) and (3, 5). -/
theorem c1_inverted_range_rejected_not_clamped_witness :
    validate_page_range (Option.some 5) (Option.some 3)
      = Except.error "page_from must be <= page_to"
    ∧ validate_page_range (Option.some 3) (Option.some 5) = Except.ok ()
    ∧ validate_page_range (Option.some 5) Option.none = Except.ok () :=
  ⟨(c1_inverted_range_rejected_not_clamped 5 3 (by decide) (by decide)).1
     (by decide),
   (c1_inverted_range_rejected_not_clamped 3 5 (by decide) (by decide)).2.1
     (by decide),
   (c1_inverted_range_rejected_not_clamped 5 3 (by decide) (by decide)).2.2.1⟩

/-! ## C2 -/

/-- C2 counterexample: for the request [5, 7], `_build_command` hands the
converter `--first-page 5 --last-page 7` verbatim; on a 4-page document the
spec's resolution formula yields (4, 4), so the effective bounds differ from
the claimed formula — the code consults no page count and clamps nothing. -/
theorem c2_no_clamping_counterexample :
    build_command opts57 "input.pdf" "output.html"
      = ["pdf2htmlEX", "--embed-css", "1", "--embed-image", "1",
         "--embed-font", "1", "--zoom", "1.0",
         "--first-page", "5", "--last-page", "7", "input.pdf", "output.html"]
    ∧ spec_resolved_range (Option.some 5) (Option.some 7) 4 = (4, 4)
    ∧ page_args (Option.some 5) (Option.some 7)
        ≠ page_args
            (Option.some
              (spec_resolved_range (Option.some 5) (Option.some 7) 4).1)
            (Option.some
              (spec_resolved_range (Option.some 5) (Option.some 7) 4).2) :=
  ⟨by rfl, by rfl, by decide⟩

/-- C2 (amended): the effective bounds handed to the converter are the
requested bounds verbatim — `_build_command` receives no page count and
performs no clamping; what validation guarantees for a request with both
bounds set is exactly `1 ≤ page_from` and `page_from ≤ page_to`, with no upper
bound from the document. -/
theorem c2_build_command_passes_requested_range (o : PdfOptions)
    (inp out : String) (a b : Nat) (hf : o.page_from = Option.some a)
    (ht : o.page_to = Option.some b)
    (hfield : fieldBoundsOk o.page_from o.page_to = true)
    (hvalid : validate_page_range o.page_from o.page_to = Except.ok ()) :
    1 ≤ a ∧ a ≤ b ∧
    build_command o inp out
      = ["pdf2htmlEX", "--embed-css", (embed_map o.embed).1,
         "--embed-image", (embed_map o.embed).2.1,
         "--embed-font", (embed_map o.embed).2.2,
         "--zoom", o.zoomStr,
         "--first-page", toString a, "--last-page", toString b, inp, out] := by
  rw [hf, ht] at hfield hvalid
  have hbounds : 1 ≤ a ∧ 1 ≤ b := by
    simpa [fieldBoundsOk] using hfield
  have hab : a ≤ b := by
    by_contra hgt
    rw [validate_page_range_inverted (by omega) (by omega) (by omega)]
      at hvalid
    exact Except.noConfusion hvalid
  refine ⟨hbounds.1, hab, ?_⟩
  simp [build_command, page_args, hf, ht]

/-- Witness for the C2 theorem at the concrete request [3, 4]. -/
theorem c2_build_command_passes_requested_range_witness :
    1 ≤ 3 ∧ 3 ≤ 4 ∧
    build_command
        (PdfOptions.mk EmbedChoice.css "2.0" (Option.some 3) (Option.some 4)
          60 true) "in.pdf" "out.html"
      = ["pdf2htmlEX", "--embed-css",
         (embed_map EmbedChoice.css).1,
         "--embed-image", (embed_map EmbedChoice.css).2.1,
         "--embed-font", (embed_map EmbedChoice.css).2.2,
         "--zoom", "2.0",
         "--first-page", toString 3, "--last-page", toString 4,
         "in.pdf", "out.html"] :=
  c2_build_command_passes_requested_range _ "in.pdf" "out.html" 3 4 rfl rfl
    (by decide) (validate_page_range_ordered (by decide))

/-! ## Style Registry lemmas (shared helpers) -/

theorem lookupIdx_eq_none {l : List String} {k : String} :
    lookupIdx l k = Option.none ↔ k ∉ l := by
  induction l with
  | nil => simp [lookupIdx]
  | cons x xs ih =>
    by_cases hx : x = k
    · subst hx
      simp [lookupIdx]
    · simp only [lookupIdx, if_neg hx, Option.map_eq_none', ih,
        List.mem_cons]
      constructor
      · intro h hor
        cases hor with
        | inl e => exact hx e.symm
        | inr hm => exact h hm
      · intro h hm
        exact h (Or.inr hm)

theorem lookupIdx_append_self {l : List String} {k : String} (h : k ∉ l) :
    lookupIdx (l ++ [k]) k = Option.some l.length := by
  induction l with
  | nil => simp [lookupIdx]
  | cons x xs ih =>
    have hx : ¬ x = k := by
      intro e
      exact h (e ▸ List.mem_cons_self x xs)
    have hk : k ∉ xs := fun hm => h (List.mem_cons_of_mem _ hm)
    simp [lookupIdx, hx, ih hk]

theorem intern_found {r : StyleRegistry} {k : String} {i : Nat}
    (h : lookupIdx r.keys k = Option.some i) :
    r.intern k = ("s" ++ toString i, r) := by
  simp [StyleRegistry.intern, h]

theorem intern_fresh {r : StyleRegistry} {k : String}
    (h : lookupIdx r.keys k = Option.none) :
    r.intern k
      = ("s" ++ toString r.keys.length,
         StyleRegistry.mk (r.keys ++ [k])) := by
  simp [StyleRegistry.intern, h]

theorem intern_idem (r : StyleRegistry) (k : String) :
    ((r.intern k).2).intern k = r.intern k := by
  cases h : lookupIdx r.keys k with
  | some i =>
    rw [intern_found h, intern_found h]
  | none =>
    have hk : k ∉ r.keys := lookupIdx_eq_none.mp h
    rw [intern_fresh h]
    exact intern_found
      (r := StyleRegistry.mk (r.keys ++ [k])) (lookupIdx_append_self hk)

theorem intern_keys (r : StyleRegistry) (k : String) :
    ((r.intern k).2).keys
      = if k ∈ r.keys then r.keys else r.keys ++ [k] := by
  cases h : lookupIdx r.keys k with
  | some i =>
    have hk : k ∈ r.keys := by
      by_contra hn
      rw [lookupIdx_eq_none.mpr hn] at h
      exact Option.noConfusion h
    rw [intern_found h, if_pos hk]
  | none =>
    rw [intern_fresh h, if_neg (lookupIdx_eq_none.mp h)]

theorem foldl_intern_keys (ks : List String) (r : StyleRegistry) :
    (ks.foldl (fun r k => (r.intern k).2) r).keys
      = ks.foldl (fun acc k => if k ∈ acc then acc else acc ++ [k]) r.keys := by
  induction ks generalizing r with
  | nil => rfl
  | cons k ks ih =>
    simp only [List.foldl_cons]
    rw [ih, intern_keys]

theorem runIntern_keys (ks : List String) :
    (runIntern ks).keys = firstSeen ks :=
  foldl_intern_keys ks (StyleRegistry.mk [])

theorem foldl_firstSeen_nodup (ks : List String) (acc : List String)
    (h : acc.Nodup) :
    (ks.foldl (fun acc k => if k ∈ acc then acc else acc ++ [k]) acc).Nodup := by
  induction ks generalizing acc with
  | nil => exact h
  | cons k ks ih =>
    simp only [List.foldl_cons]
    by_cases hk : k ∈ acc
    · rw [if_pos hk]
      exact ih acc h
    · rw [if_neg hk]
      refine ih _ ?_
      simpa [List.nodup_append, hk] using h

theorem firstSeen_nodup (ks : List String) : (firstSeen ks).Nodup :=
  foldl_firstSeen_nodup ks [] List.nodup_nil

theorem lookupIdx_of_get? {l : List String} (h : l.Nodup) {i : Nat}
    {k : String} (hg : l.get? i = Option.some k) :
    lookupIdx l k = Option.some i := by
  induction l generalizing i with
  | nil => simp at hg
  | cons x xs ih =>
    cases i with
    | zero =>
      simp only [List.get?] at hg
      cases hg
      simp [lookupIdx]
    | succ n =>
      simp only [List.get?] at hg
      have hx : ¬ x = k := by
        intro e
        subst e
        exact (List.nodup_cons.mp h).1 (List.get?_mem hg)
      simp [lookupIdx, hx, ih (List.nodup_cons.mp h).2 hg]

/-! ## C3 -/

/-- C3: interning into the Style Registry is idempotent and deterministically
ordered — after any sequence `ks` of canonical keys, re-interning a key returns
the same identifier without changing the registry (so the CSS rule set does
not grow), the registry's keys are exactly the distinct keys of `ks` in
first-seen order, and the key at first-seen position `i` maps to the class
identifier `s{i}` (hence equal keys always receive the same identifier,
however often each recurs). -/
theorem c3_registry_intern_idempotent_ordered (ks : List String) (k : String) :
    ((runIntern ks).intern k).2.intern k = (runIntern ks).intern k
    ∧ (runIntern ks).keys = firstSeen ks
    ∧ (∀ i key, (firstSeen ks).get? i = Option.some key →
        ((runIntern ks).intern key).1 = "s" ++ toString i)
    ∧ StyleRegistry.emit_css (runIntern ks)
        = (firstSeen ks).enum.map (fun p => ("s" ++ toString p.1, p.2)) := by
  refine ⟨intern_idem _ _, runIntern_keys ks, ?_, ?_⟩
  · intro i key hg
    have hl : lookupIdx (runIntern ks).keys key = Option.some i := by
      rw [runIntern_keys]
      exact lookupIdx_of_get? (firstSeen_nodup ks) hg
    rw [intern_found hl]
  · simp [StyleRegistry.emit_css, runIntern_keys]

/-- Witness for the C3 theorem on the concrete key sequence
["c", "d", "c"] with re-interned key "d": the distinct keys are ["c", "d"] in
first-seen order, key "c" (position 0) yields identifier "s0" and key "d"
(position 1) yields "s1". -/
theorem c3_registry_intern_idempotent_ordered_witness :
    ((runIntern ["c", "d", "c"]).intern "d").2.intern "d"
        = (runIntern ["c", "d", "c"]).intern "d"
    ∧ (runIntern ["c", "d", "c"]).keys = firstSeen ["c", "d", "c"]
    ∧ ((runIntern ["c", "d", "c"]).intern "c").1 = "s" ++ toString 0
    ∧ ((runIntern ["c", "d", "c"]).intern "d").1 = "s" ++ toString 1 :=
  ⟨(c3_registry_intern_idempotent_ordered ["c", "d", "c"] "d").1,
   (c3_registry_intern_idempotent_ordered ["c", "d", "c"] "d").2.1,
   (c3_registry_intern_idempotent_ordered ["c", "d", "c"] "d").2.2.1 0 "c"
     (by decide),
   (c3_registry_intern_idempotent_ordered ["c", "d", "c"] "d").2.2.1 1 "d"
     (by decide)⟩

/-! ## Escaping lemmas (shared helpers) -/

theorem escape_cons (c : Char) (cs : List Char) :
    escape (c :: cs) = escapeChar c ++ escape cs := by
  simp [escape]

theorem escapeChar_no_raw (c : Char) :
    '<' ∉ escapeChar c ∧ '>' ∉ escapeChar c := by
  unfold escapeChar
  split_ifs with h1 h2 h3 h4 h5
  · exact ⟨by decide, by decide⟩
  · exact ⟨by decide, by decide⟩
  · exact ⟨by decide, by decide⟩
  · exact ⟨by decide, by decide⟩
  · exact ⟨by decide, by decide⟩
  · constructor
    · simp only [List.mem_singleton]
      exact fun e => h2 e.symm
    · simp only [List.mem_singleton]
      exact fun e => h3 e.symm

theorem ampEntitiesOnly_escapeChar (c : Char) (rest : List Char) :
    ampEntitiesOnly (escapeChar c ++ rest) = ampEntitiesOnly rest := by
  unfold escapeChar
  split_ifs with h1 h2 h3 h4 h5
  · subst h1
    simp [ampEntitiesOnly, List.take]
  · subst h2
    simp [ampEntitiesOnly, List.take]
  · subst h3
    simp [ampEntitiesOnly, List.take]
  · subst h4
    simp [ampEntitiesOnly, List.take]
  · subst h5
    simp [ampEntitiesOnly, List.take, sq]
  · simp [ampEntitiesOnly, h1, h2, h3]

theorem escape_no_raw (s : List Char) :
    '<' ∉ escape s ∧ '>' ∉ escape s
    ∧ ampEntitiesOnly (escape s) = true := by
  induction s with
  | nil => exact ⟨by decide, by decide, rfl⟩
  | cons c cs ih =>
    have hc := escapeChar_no_raw c
    refine ⟨?_, ?_, ?_⟩
    · rw [escape_cons]
      intro hm
      rcases List.mem_append.mp hm with h | h
      · exact hc.1 h
      · exact ih.1 h
    · rw [escape_cons]
      intro hm
      rcases List.mem_append.mp hm with h | h
      · exact hc.2 h
      · exact ih.2.1 h
    · rw [escape_cons, ampEntitiesOnly_escapeChar]
      exact ih.2.2

/-! ## C4 -/

/-- C4: a zero-page document (empty extractor output) renders to the complete
document consisting of exactly the opening and closing fragments — zero page
sections — with the `pages` metric equal to 0; `pdf2html_ex_render` is a total
function, so no error is raised on this input. -/
theorem c4_zero_pages_empty_document :
    pdf2html_ex_render [] = (headerFragment ++ "\n" ++ footerFragment, 0)
    ∧ (renderLoop []).1 = [headerFragment] :=
  ⟨rfl, rfl⟩

/-! ## C5 -/

/-- C5: each page fragment is the page's escaped text between the fixed
`<section …><pre>` and `</pre></section>` tag strings, and the escaped text —
for any input, in particular any text containing `<`, `>` or `&` — contains no
raw `<` or `>` at all, and every `&` in it starts one of the five entities
generated by `html.escape`. -/
theorem c5_escape_leaves_no_raw_specials (text : String) (i : Nat) :
    pageFragment i text = sectionOpen i ++ escapeS text ++ sectionClose
    ∧ '<' ∉ escape text.toList
    ∧ '>' ∉ escape text.toList
    ∧ ampEntitiesOnly (escape text.toList) = true :=
  ⟨rfl, (escape_no_raw _).1, (escape_no_raw _).2.1, (escape_no_raw _).2.2⟩

/-! ## C6 -/

theorem renderLoop_go (texts : List String) (acc : List String) (n : Nat) :
    texts.foldl
        (fun acc t => (acc.1 ++ [pageFragment (acc.2 + 1) t], acc.2 + 1))
        (acc, n)
      = (acc ++ (texts.enumFrom n).map (fun p => pageFragment (p.1 + 1) p.2),
         n + texts.length) := by
  induction texts generalizing acc n with
  | nil => simp
  | cons t ts ih =>
    simp only [List.foldl_cons, List.enumFrom, List.map_cons]
    rw [ih]
    refine Prod.ext ?_ ?_
    · simp [List.append_assoc]
    · simp
      omega

theorem renderLoop_eq (texts : List String) :
    renderLoop texts
      = (headerFragment
           :: (texts.enum.map fun p => pageFragment (p.1 + 1) p.2),
         texts.length) := by
  unfold renderLoop
  rw [renderLoop_go]
  simp [List.enum]

/-- C6: the fragment list is the header followed by exactly one page fragment
per page, where page `j` (0-based position) is wrapped with the 1-based index
`j + 1` as its `data-page` metadata; the carried indices are strictly
ascending and contain no duplicate. -/
theorem c6_page_fragments_in_order (texts : List String) :
    (renderLoop texts).1
      = headerFragment :: (texts.enum.map fun p => pageFragment (p.1 + 1) p.2)
    ∧ (renderLoop texts).2 = texts.length
    ∧ List.Chain' (fun a b => a < b) (texts.enum.map fun p => p.1 + 1)
    ∧ (texts.enum.map fun p => p.1 + 1).Nodup := by
  have hidx : (texts.enum.map fun p => p.1 + 1)
      = (List.range texts.length).map (· + 1) := by
    rw [← List.enum_map_fst texts, List.map_map]
    rfl
  have hp : List.Pairwise (fun a b => a < b)
      ((List.range texts.length).map (· + 1)) := by
    refine List.Pairwise.map _ ?_ (List.pairwise_lt_range _)
    intro a b h
    omega
  refine ⟨by rw [renderLoop_eq], by rw [renderLoop_eq], ?_, ?_⟩
  · rw [hidx]
    exact hp.chain'
  · rw [hidx]
    exact hp.imp (fun h => Nat.ne_of_lt h)

/-! ## C8 -/

/-- C8: the conversion is stateless across invocations — the handler leaves
the (empty) module state untouched, its output is a function of the extractor
output alone, so two invocations with the same input produce equal HTML and
equal page metrics, and a preceding invocation cannot influence a later
one. -/
theorem c8_conversion_stateless (s s' : ExGlobalState) (t1 t2 : List String) :
    (pdf2html_ex_stateful s t1).1 = (pdf2html_ex_stateful s' t1).1
    ∧ (pdf2html_ex_stateful s t1).2 = s
    ∧ (pdf2html_ex_stateful ((pdf2html_ex_stateful s t1).2) t2).1
        = (pdf2html_ex_stateful s' t2).1
    ∧ (pdf2html_ex_stateful s t1).1 = pdf2html_ex_render t1 :=
  ⟨rfl, rfl, rfl, rfl⟩

/-! ## Pipeline lemmas (shared helpers) -/

theorem truthyStr_some {s : String} (h : s ≠ "") :
    truthyStr (Option.some s) = true := by
  simp [truthyStr, h]

theorem acquire_main_b64 (b64 : String) (url : Option String) (env : MainEnv)
    (h : b64 ≠ "") :
    acquire_main (Option.some b64) url env
      = (match env.decodeRes with
         | Except.ok bs => Except.ok bs
         | Except.error _ => Except.error (Option.some 400), false) := by
  simp [acquire_main, truthyStr_some h]

theorem acquire_main_url_fail (u : String) (env : MainEnv)
    (hdl : env.downloadRes = Except.error ()) :
    (acquire_main Option.none (Option.some u) env).1
      = Except.error (Option.some 400) := by
  simp only [acquire_main, truthyStr]
  by_cases h1 : pyStrip u = ""
  · simp [h1]
  · by_cases h2 : startsWithHttp (pyStrip u) = true
    · simp [h1, h2, hdl]
    · simp [h1, h2]

theorem pdf2html_main_acq_error (p u : Option String) (env : MainEnv)
    (e : Option Nat) (h : (acquire_main p u env).1 = Except.error e) :
    (pdf2html_main p u env).result = Except.error e
    ∧ (pdf2html_main p u env).invokedConverter = false
    ∧ (pdf2html_main p u env).wroteFile = false
    ∧ (pdf2html_main p u env).acquired = Option.none := by
  simp [pdf2html_main, h]

theorem pdf2html_main_too_large (p u : Option String) (env : MainEnv)
    (bs : Bytes) (h : (acquire_main p u env).1 = Except.ok bs)
    (hl : bs.length > MAX_PDF_BYTES) :
    (pdf2html_main p u env).result = Except.error (Option.some 413)
    ∧ (pdf2html_main p u env).invokedConverter = false
    ∧ (pdf2html_main p u env).wroteFile = false
    ∧ (pdf2html_main p u env).acquired = Option.some bs := by
  simp [pdf2html_main, h, hl]

theorem pdf2html_main_within_limit (p u : Option String) (env : MainEnv)
    (bs : Bytes) (h : (acquire_main p u env).1 = Except.ok bs)
    (hl : ¬ bs.length > MAX_PDF_BYTES) :
    (pdf2html_main p u env).result
      = (match env.converter with
         | ConvOutcome.timeout => Except.error (Option.some 504)
         | ConvOutcome.finished rc =>
           if rc ≠ 0 then Except.error (Option.some 500)
           else if !env.htmlExists then Except.error (Option.some 500)
           else Except.ok ())
    ∧ (pdf2html_main p u env).invokedConverter = true
    ∧ (pdf2html_main p u env).wroteFile = true
    ∧ (pdf2html_main p u env).acquired = Option.some bs := by
  simp only [pdf2html_main, h, hl]
  cases env.converter with
  | timeout => simp
  | finished rc =>
    by_cases hrc : rc = 0
    · subst hrc
      cases hh : env.htmlExists <;> simp [hh]
    · simp [hrc]

theorem pdf2html_main_fetched (p u : Option String) (env : MainEnv) :
    (pdf2html_main p u env).fetchedUrl = (acquire_main p u env).2 := by
  simp only [pdf2html_main]
  cases h : (acquire_main p u env).1 with
  | error e => simp
  | ok bs =>
    by_cases hl : bs.length > MAX_PDF_BYTES
    · simp [hl]
    · simp only [hl]
      cases env.converter with
      | timeout => simp
      | finished rc =>
        by_cases hrc : rc = 0
        · subst hrc
          cases hh : env.htmlExists <;> simp [hh]
        · simp [hrc]

theorem acquire_main_error_status (p u : Option String) (env : MainEnv)
    (e : Option Nat) (h : (acquire_main p u env).1 = Except.error e) :
    e = Option.some 400 ∨ e = Option.none := by
  rcases p with _ | s
  · rcases u with _ | us
    · simp [acquire_main, truthyStr] at h
      exact Or.inr h.symm
    · simp only [acquire_main, truthyStr] at h
      by_cases h1 : pyStrip us = ""
      · simp [h1] at h
        exact Or.inl h.symm
      · by_cases h2 : startsWithHttp (pyStrip us) = true
        · simp only [h1, h2] at h
          cases hdl : env.downloadRes with
          | ok bs => simp [hdl] at h
          | error _ =>
            simp [hdl, h1, h2] at h
            exact Or.inl h.symm
        · simp [h1, h2] at h
          exact Or.inl h.symm
  · by_cases hs : s = ""
    · subst hs
      rcases u with _ | us
      · simp [acquire_main, truthyStr] at h
        exact Or.inr h.symm
      · simp only [acquire_main, truthyStr] at h
        by_cases h1 : pyStrip us = ""
        · simp [h1] at h
          exact Or.inl h.symm
        · by_cases h2 : startsWithHttp (pyStrip us) = true
          · simp only [h1, h2] at h
            cases hdl : env.downloadRes with
            | ok bs => simp [hdl] at h
            | error _ =>
              simp [hdl, h1, h2] at h
              exact Or.inl h.symm
          · simp [h1, h2] at h
            exact Or.inl h.symm
    · rw [acquire_main_b64 s u env hs] at h
      cases hd : env.decodeRes with
      | ok bs => simp [hd] at h
      | error _ =>
        simp [hd] at h
        exact Or.inl h.symm

/-! ## C10 -/

/-- C10: whenever the acquired PDF bytes exceed `MAX_PDF_BYTES` the request
fails with HTTP 413 before the input file is written and before the converter
is invoked; whenever acquisition succeeds with at most `MAX_PDF_BYTES` bytes —
or fails outright — the request is never answered with 413. -/
theorem c10_size_limit_enforced_before_conversion (p u : Option String)
    (env : MainEnv) :
    (∀ bs, (pdf2html_main p u env).acquired = Option.some bs →
        bs.length > MAX_PDF_BYTES →
        (pdf2html_main p u env).result = Except.error (Option.some 413)
        ∧ (pdf2html_main p u env).wroteFile = false
        ∧ (pdf2html_main p u env).invokedConverter = false)
    ∧ (∀ bs, (pdf2html_main p u env).acquired = Option.some bs →
        bs.length ≤ MAX_PDF_BYTES →
        (pdf2html_main p u env).result ≠ Except.error (Option.some 413))
    ∧ ((pdf2html_main p u env).acquired = Option.none →
        (pdf2html_main p u env).result ≠ Except.error (Option.some 413)) := by
  cases hacq : (acquire_main p u env).1 with
  | error e =>
    have he := pdf2html_main_acq_error p u env e hacq
    refine ⟨?_, ?_, ?_⟩
    · intro bs hbs
      rw [he.2.2.2] at hbs
      exact absurd hbs (by simp)
    · intro bs hbs
      rw [he.2.2.2] at hbs
      exact absurd hbs (by simp)
    · intro _
      rw [he.1]
      rcases acquire_main_error_status p u env e hacq with h4 | h4 <;>
        simp [h4]
  | ok bs0 =>
    by_cases hl : bs0.length > MAX_PDF_BYTES
    · have ht := pdf2html_main_too_large p u env bs0 hacq hl
      refine ⟨?_, ?_, ?_⟩
      · intro bs hbs _
        exact ⟨ht.1, ht.2.2.1, ht.2.1⟩
      · intro bs hbs hle
        rw [ht.2.2.2] at hbs
        cases hbs
        omega
      · intro hn
        rw [ht.2.2.2] at hn
        exact absurd hn (by simp)
    · have hw := pdf2html_main_within_limit p u env bs0 hacq hl
      refine ⟨?_, ?_, ?_⟩
      · intro bs hbs hgt
        rw [hw.2.2.2] at hbs
        cases hbs
        omega
      · intro bs hbs _
        rw [hw.1]
        cases env.converter with
        | timeout => simp
        | finished rc =>
          by_cases hrc : rc = 0
          · subst hrc
            cases hh : env.htmlExists <;> simp [hh]
          · simp [hrc]
      · intro hn
        rw [hw.2.2.2] at hn
        exact absurd hn (by simp)

/-- Witness for the C10 theorem: a 20 MiB + 1 byte payload is rejected with
413 without writing a file or invoking the converter, and a 4-byte payload is
not answered with 413. -/
theorem c10_size_limit_enforced_before_conversion_witness :
    ((pdf2html_main (Option.some "QQ==") Option.none bigEnv).result
        = Except.error (Option.some 413)
      ∧ (pdf2html_main (Option.some "QQ==") Option.none bigEnv).wroteFile
        = false
      ∧ (pdf2html_main (Option.some "QQ==") Option.none
          bigEnv).invokedConverter = false)
    ∧ (pdf2html_main (Option.some "QQ==") Option.none okEnv).result
        ≠ Except.error (Option.some 413) := by
  have hacqBig :
      (acquire_main (Option.some "QQ==") Option.none bigEnv).1
        = Except.ok (List.replicate (MAX_PDF_BYTES + 1) 0) := by
    rw [acquire_main_b64 _ _ _ (by decide)]
    simp [bigEnv]
  have hlenBig : (List.replicate (MAX_PDF_BYTES + 1) 0).length
      > MAX_PDF_BYTES := by
    simp
  have hacqOk :
      (acquire_main (Option.some "QQ==") Option.none okEnv).1
        = Except.ok [37, 80, 68, 70] := by
    rw [acquire_main_b64 _ _ _ (by decide)]
    simp [okEnv]
  refine ⟨?_, ?_⟩
  · exact
      (c10_size_limit_enforced_before_conversion (Option.some "QQ==")
          Option.none bigEnv).1 (List.replicate (MAX_PDF_BYTES + 1) 0)
        (pdf2html_main_too_large _ _ _ _ hacqBig hlenBig).2.2.2 hlenBig
  · refine
      (c10_size_limit_enforced_before_conversion (Option.some "QQ==")
          Option.none okEnv).2.1 [37, 80, 68, 70]
        (pdf2html_main_within_limit _ _ _ _ hacqOk (by decide)).2.2.2
        (by decide)

/-! ## C7 -/

/-- C7 counterexample: in pdf2htmlex-service a failed PDF download is not
mapped to HTTP 400 — `_load_pdf_bytes` wraps no try/except around
`requests.get(...)` / `r.raise_for_status()`, so the failure propagates as an
uncaught exception, which FastAPI answers with HTTP 500. -/
theorem c7_ex_download_failure_not_400 :
    (load_pdf_bytes_ex Option.none (Option.some "http://h/a.pdf")
        (Except.ok []) (Except.error ())).1 = Except.error Option.none
    ∧ httpStatus Option.none = 500
    ∧ (500 : Nat) ≠ 400 :=
  ⟨rfl, rfl, by decide⟩

/-- C7 (amended): the status mapping holds with one exception.  In src/app.py:
invalid base64 → 400, any download failure → 400, converter timeout → 504,
converter non-zero exit → 500, missing HTML output → 500.  In
pdf2htmlex-service: invalid base64 → 400, but a failed download raises an
uncaught exception answered with HTTP 500 rather than 400.  In
pdf2htmlx-service: invalid base64 → 400, failed download → 400, timeout → 504,
non-zero exit (`CalledProcessError`) → 500, missing HTML output → 500. -/
theorem c7_http_status_mapping (b64 u : String) (env : MainEnv)
    (dl : Except Unit Bytes) (conv : ConvOutcome) (he : Bool) :
    (b64 ≠ "" → env.decodeRes = Except.error () →
      (pdf2html_main (Option.some b64) Option.none env).result
        = Except.error (Option.some 400))
    ∧ (env.downloadRes = Except.error () →
      (pdf2html_main Option.none (Option.some u) env).result
        = Except.error (Option.some 400))
    ∧ (∀ bs, b64 ≠ "" → env.decodeRes = Except.ok bs →
        bs.length ≤ MAX_PDF_BYTES →
        ((env.converter = ConvOutcome.timeout →
            (pdf2html_main (Option.some b64) Option.none env).result
              = Except.error (Option.some 504))
        ∧ (∀ rc, env.converter = ConvOutcome.finished rc → rc ≠ 0 →
            (pdf2html_main (Option.some b64) Option.none env).result
              = Except.error (Option.some 500))
        ∧ (env.converter = ConvOutcome.finished 0 → env.htmlExists = false →
            (pdf2html_main (Option.some b64) Option.none env).result
              = Except.error (Option.some 500))))
    ∧ (b64 ≠ "" →
        (load_pdf_bytes_ex (Option.some b64) Option.none (Except.error ())
            dl).1 = Except.error (Option.some 400))
    ∧ ((load_pdf_bytes_ex Option.none (Option.some u) (Except.ok [])
          (Except.error ())).1 = Except.error Option.none)
    ∧ (pyStrip b64 ≠ "" →
        convert_pdf_x (Option.some b64) Option.none (Except.error ()) dl conv
          he = Except.error (Option.some 400))
    ∧ (convert_pdf_x Option.none (Option.some u) (Except.ok [])
        (Except.error ()) conv he = Except.error (Option.some 400))
    ∧ (∀ bs, pyStrip b64 ≠ "" →
        convert_pdf_x (Option.some b64) Option.none (Except.ok bs) dl
          ConvOutcome.timeout he = Except.error (Option.some 504))
    ∧ (∀ bs rc, pyStrip b64 ≠ "" → rc ≠ 0 →
        convert_pdf_x (Option.some b64) Option.none (Except.ok bs) dl
          (ConvOutcome.finished rc) he = Except.error (Option.some 500))
    ∧ (∀ bs, pyStrip b64 ≠ "" →
        convert_pdf_x (Option.some b64) Option.none (Except.ok bs) dl
          (ConvOutcome.finished 0) false = Except.error (Option.some 500)) := by
  refine ⟨?_, ?_, ?_, ?_, ?_, ?_, ?_, ?_, ?_, ?_⟩
  · intro hb hd
    refine (pdf2html_main_acq_error _ _ _ _ ?_).1
    rw [acquire_main_b64 _ _ _ hb]
    simp [hd]
  · intro hdl
    exact (pdf2html_main_acq_error _ _ _ _
      (acquire_main_url_fail u env hdl)).1
  · intro bs hb hd hle
    have hacq : (acquire_main (Option.some b64) Option.none env).1
        = Except.ok bs := by
      rw [acquire_main_b64 _ _ _ hb]
      simp [hd]
    have hw := pdf2html_main_within_limit _ _ _ _ hacq (by omega)
    refine ⟨?_, ?_, ?_⟩
    · intro hc
      rw [hw.1, hc]
    · intro rc hc hrc
      rw [hw.1, hc]
      simp [hrc]
    · intro hc hh
      rw [hw.1, hc]
      simp [hh]
  · intro hb
    simp [load_pdf_bytes_ex, truthyStr_some hb]
  · rfl
  · intro hb
    simp [convert_pdf_x, load_pdf_bytes_x, truthyStr_some hb]
  · rfl
  · intro bs hb
    simp [convert_pdf_x, load_pdf_bytes_x, truthyStr_some hb]
  · intro bs rc hb hrc
    simp [convert_pdf_x, load_pdf_bytes_x, truthyStr_some hb, hrc]
  · intro bs hb
    simp [convert_pdf_x, load_pdf_bytes_x, truthyStr_some hb]

/-- Witness for the C7 theorem across concrete requests: decode failure and
download failure in the main service, a converter timeout in the main service,
a decode failure in the ex service, the uncaught download failure in the ex
service, and a non-zero converter exit in the x service. -/
theorem c7_http_status_mapping_witness :
    (pdf2html_main (Option.some "QQ==") Option.none errEnv).result
        = Except.error (Option.some 400)
    ∧ (pdf2html_main Option.none (Option.some "http://h/a.pdf")
          errEnv).result = Except.error (Option.some 400)
    ∧ (pdf2html_main (Option.some "QQ==") Option.none timeoutEnv).result
        = Except.error (Option.some 504)
    ∧ (load_pdf_bytes_ex (Option.some "QQ==") Option.none (Except.error ())
          (Except.ok [])).1 = Except.error (Option.some 400)
    ∧ (load_pdf_bytes_ex Option.none (Option.some "http://h/a.pdf")
          (Except.ok []) (Except.error ())).1 = Except.error Option.none
    ∧ convert_pdf_x (Option.some "QQ==") Option.none (Except.ok [])
          (Except.ok []) (ConvOutcome.finished 1) true
        = Except.error (Option.some 500) :=
  ⟨(c7_http_status_mapping "QQ==" "http://h/a.pdf" errEnv (Except.ok [])
      (ConvOutcome.finished 1) true).1 (by decide) rfl,
   (c7_http_status_mapping "QQ==" "http://h/a.pdf" errEnv (Except.ok [])
      (ConvOutcome.finished 1) true).2.1 rfl,
   ((c7_http_status_mapping "QQ==" "http://h/a.pdf" timeoutEnv (Except.ok [])
      (ConvOutcome.finished 1) true).2.2.1 [1] (by decide) rfl
      (by decide)).1 rfl,
   (c7_http_status_mapping "QQ==" "http://h/a.pdf" errEnv (Except.ok [])
      (ConvOutcome.finished 1) true).2.2.2.1 (by decide),
   (c7_http_status_mapping "QQ==" "http://h/a.pdf" errEnv (Except.ok [])
      (ConvOutcome.finished 1) true).2.2.2.2.1,
   (c7_http_status_mapping "QQ==" "http://h/a.pdf" errEnv (Except.ok [])
      (ConvOutcome.finished 1) true).2.2.2.2.2.2.2.2.1 [] 1 (by decide)
      (by decide)⟩

/-! ## C9 -/

/-- C9 counterexample: in pdf2htmlx-service a whitespace-only `pdf_b64` — a
non-empty string — does NOT take precedence: the `strip_whitespace` field
validator reduces it to the empty string, the truthiness test fails, and the
loader falls through to fetching the URL. -/
theorem c9_whitespace_b64_fetches_url :
    ((" " : String) ≠ "")
    ∧ (load_pdf_bytes_x (Option.some " ") (Option.some "http://h/a.pdf")
        (Except.ok []) (Except.ok [7])).2 = true
    ∧ (load_pdf_bytes_x (Option.some " ") (Option.some "http://h/a.pdf")
        (Except.ok []) (Except.ok [7])).1 = Except.ok [7] :=
  ⟨by decide, rfl, rfl⟩

/-- C9 (amended): the base64 payload takes precedence whenever it is truthy at
load time — in src/app.py and pdf2htmlex-service for every non-empty `pdf_b64`
string, and in pdf2htmlx-service for every `pdf_b64` that is non-empty AFTER
stripping leading and trailing whitespace: the PDF bytes come from decoding the
payload and the URL is never fetched.  (A whitespace-only `pdf_b64` in
pdf2htmlx-service instead falls through to the URL.) -/
theorem c9_b64_precedence (b64 : String) (url : Option String) (env : MainEnv)
    (dEx dlEx dX dlX : Except Unit Bytes) :
    (b64 ≠ "" →
        (pdf2html_main (Option.some b64) url env).fetchedUrl = false
      ∧ (∀ bs, env.decodeRes = Except.ok bs →
          (pdf2html_main (Option.some b64) url env).acquired
            = Option.some bs)
      ∧ (load_pdf_bytes_ex (Option.some b64) url dEx dlEx).2 = false
      ∧ (∀ bs, dEx = Except.ok bs →
          (load_pdf_bytes_ex (Option.some b64) url dEx dlEx).1
            = Except.ok bs))
    ∧ (pyStrip b64 ≠ "" →
        (load_pdf_bytes_x (Option.some b64) url dX dlX).2 = false
      ∧ (∀ bs, dX = Except.ok bs →
          (load_pdf_bytes_x (Option.some b64) url dX dlX).1
            = Except.ok bs)) := by
  constructor
  · intro hb
    refine ⟨?_, ?_, ?_, ?_⟩
    · rw [pdf2html_main_fetched, acquire_main_b64 _ _ _ hb]
    · intro bs hd
      have hacq : (acquire_main (Option.some b64) url env).1
          = Except.ok bs := by
        rw [acquire_main_b64 _ _ _ hb]
        simp [hd]
      by_cases hl : bs.length > MAX_PDF_BYTES
      · exact (pdf2html_main_too_large _ _ _ _ hacq hl).2.2.2
      · exact (pdf2html_main_within_limit _ _ _ _ hacq hl).2.2.2
    · simp [load_pdf_bytes_ex, truthyStr_some hb]
    · intro bs hd
      simp [load_pdf_bytes_ex, truthyStr_some hb, hd]
  · intro hb
    refine ⟨?_, ?_⟩
    · simp [load_pdf_bytes_x, truthyStr_some hb]
    · intro bs hd
      simp [load_pdf_bytes_x, truthyStr_some hb, hd]

/-- Witness for the C9 theorem at a concrete non-empty base64 payload with a
URL also supplied: no service fetches the URL and all take the decoded
bytes. -/
theorem c9_b64_precedence_witness :
    (pdf2html_main (Option.some "QQ==") (Option.some "http://h/a.pdf")
        okEnv).fetchedUrl = false
    ∧ (pdf2html_main (Option.some "QQ==") (Option.some "http://h/a.pdf")
        okEnv).acquired = Option.some [37, 80, 68, 70]
    ∧ (load_pdf_bytes_ex (Option.some "QQ==") (Option.some "http://h/a.pdf")
        (Except.ok [1]) (Except.ok [9])).2 = false
    ∧ (load_pdf_bytes_ex (Option.some "QQ==") (Option.some "http://h/a.pdf")
        (Except.ok [1]) (Except.ok [9])).1 = Except.ok [1]
    ∧ (load_pdf_bytes_x (Option.some "QQ==") (Option.some "http://h/a.pdf")
        (Except.ok [2]) (Except.ok [9])).2 = false
    ∧ (load_pdf_bytes_x (Option.some "QQ==") (Option.some "http://h/a.pdf")
        (Except.ok [2]) (Except.ok [9])).1 = Except.ok [2] :=
  ⟨((c9_b64_precedence "QQ==" (Option.some "http://h/a.pdf") okEnv
      (Except.ok [1]) (Except.ok [9]) (Except.ok [2]) (Except.ok [9])).1
      (by decide)).1,
   ((c9_b64_precedence "QQ==" (Option.some "http://h/a.pdf") okEnv
      (Except.ok [1]) (Except.ok [9]) (Except.ok [2]) (Except.ok [9])).1
      (by decide)).2.1 [37, 80, 68, 70] rfl,
   ((c9_b64_precedence "QQ==" (Option.some "http://h/a.pdf") okEnv
      (Except.ok [1]) (Except.ok [9]) (Except.ok [2]) (Except.ok [9])).1
      (by decide)).2.2.1,
   ((c9_b64_precedence "QQ==" (Option.some "http://h/a.pdf") okEnv
      (Except.ok [1]) (Except.ok [9]) (Except.ok [2]) (Except.ok [9])).1
      (by decide)).2.2.2 [1] rfl,
   ((c9_b64_precedence "QQ==" (Option.some "http://h/a.pdf") okEnv
      (Except.ok [1]) (Except.ok [9]) (Except.ok [2]) (Except.ok [9])).2
      (by decide)).1,
   ((c9_b64_precedence "QQ==" (Option.some "http://h/a.pdf") okEnv
      (Except.ok [1]) (Except.ok [9]) (Except.ok [2]) (Except.ok [9])).2
      (by decide)).2 [2] rfl⟩

end Pdf2HtmlEx
